import Mathlib

/-!
Verification of the job-discovery pipeline of agent-null-null-job.

Shallow embedding of the application core: the domain entities
(src/domain/entities/job.ts, src/domain/types/common.ts), the sqlite
storage adapter's pure state semantics (infrastructure/adapters/storage),
and the use cases processJobs, scoreJobs, scrapeJobs, sendNotifications,
authenticate, plus the orchestrator runJobDiscovery and purgeCache from
application/services/job-hunter-service.ts.

Conventions of the embedding:
- JavaScript Date values are modelled as Int milliseconds.
- Effect.Effect success/failure channels are modelled as Except String
  (typed error records collapse to their message string; the message
  prefixes built by mapError are mirrored).
- external collaborators (scraper, LLM service, telegram bot, and the
  possibility of a storage write failing) are modelled as oracle records
  of functions returning Except values.
- the encrypted keyv store is modelled as a Storage record holding the
  logical namespaces job:*, auth:session, run:*, score:*, seen:*;
  keyv.set is an upsert on the corresponding key.
- calls made to collaborators that the claims count (LLM invocations,
  telegram sends, saveJobRun persists) are recorded in explicit event
  traces returned next to the result.
-/

namespace NullNullJob

/-! ## Data model (src/domain/entities/job.ts, src/domain/types/common.ts) -/

structure JobId where
  value : String
deriving Repr, DecidableEq

structure Job where
  id : JobId
  title : String
  company : String
  location : String
  remotePolicy : String
  seniority : String
  employmentType : String
  postedAt : Int
  salaryHint : Option String := none
  languages : List String := []
  techStack : List String := []
  description : String
  applyUrl : String
  source : String
  createdAt : Int
  updatedAt : Int
  score : Option Int := none
  rationale : Option String := none
  gaps : Option (List String) := none
deriving Repr, DecidableEq

structure AuthSession where
  id : String
  cookies : List String
  userAgent : String
  expiresAt : Int
  createdAt : Int
  updatedAt : Int
deriving Repr, DecidableEq

structure JobCriteria where
  id : String
  keywords : List String
  location : String
  remotePolicy : Option String := none
  seniority : Option String := none
  employmentType : Option String := none
  salaryMin : Option Int := none
  enabled : Bool
deriving Repr, DecidableEq

inductive JobRunStatus where
  | RUNNING
  | COMPLETED
  | FAILED
  | CANCELLED
deriving Repr, DecidableEq

structure JobRun where
  id : String
  criteriaId : String
  startedAt : Int
  completedAt : Option Int := none
  jobsFound : Nat
  jobsProcessed : Nat
  jobsScored : Nat
  errors : List String
  status : JobRunStatus
deriving Repr, DecidableEq

structure JobScore where
  jobId : String
  score : Int
  rationale : String
  gaps : List String
  cvVersion : String
  scoredAt : Int
deriving Repr, DecidableEq

/-! ## Storage state (infrastructure/adapters/storage/sqlite-storage)

The keyv store keeps one value per key.  `upsertBy` models keyv.set:
replace the entry with the same key, else append. -/

def upsertBy {α : Type} (key : α → String) (x : α) : List α → List α
  | [] => [x]
  | y :: ys => if key y == key x then x :: ys else y :: upsertBy key x ys

structure Storage where
  jobs : List Job := []
  session : Option AuthSession := none
  runs : List JobRun := []
  scores : List JobScore := []
  seen : List String := []
deriving Repr, DecidableEq

/-- saveJob: keyv.set over the key job:id, returning the job. -/
def Storage.saveJob (st : Storage) (job : Job) : Storage × Job :=
  ({ st with jobs := upsertBy (fun j => j.id.value) job st.jobs }, job)

/-- getJobsByCriteria: iterates all job:* entries, keeping those with
source "linkedin" and, when a since cutoff is given, postedAt >= since.
The criteriaId parameter is accepted but never consulted, exactly as in
the sqlite adapter. -/
def Storage.getJobsByCriteria (st : Storage) (_criteriaId : String)
    (since : Option Int) : List Job :=
  st.jobs.filter fun job =>
    job.source == "linkedin" &&
      (match since with
       | none => true
       | some s => decide (s ≤ job.postedAt))

def Storage.saveSession (st : Storage) (session : AuthSession) : Storage :=
  { st with session := some session }

def Storage.deleteSession (st : Storage) : Storage :=
  { st with session := none }

def Storage.saveJobRun (st : Storage) (run : JobRun) : Storage :=
  { st with runs := upsertBy (fun r => r.id) run st.runs }

/-- saveJobScore: keyv.set over the key score:jobId:scoredAt — an
append-only history as long as (jobId, scoredAt) pairs differ. -/
def Storage.saveJobScore (st : Storage) (s : JobScore) : Storage :=
  { st with
    scores := upsertBy (fun x => x.jobId ++ ":" ++ toString x.scoredAt) s st.scores }

/-- Insertion step of the descending sort used by getJobScores. -/
def insertByScoredAtDesc (s : JobScore) : List JobScore → List JobScore
  | [] => [s]
  | t :: ts => if t.scoredAt < s.scoredAt then s :: t :: ts else t :: insertByScoredAtDesc s ts

/-- getJobScores sorts the matching history newest-first
(sort((a, b) => b.scoredAt.getTime() - a.scoredAt.getTime())). -/
def sortByScoredAtDesc : List JobScore → List JobScore
  | [] => []
  | s :: ss => insertByScoredAtDesc s (sortByScoredAtDesc ss)

/-- getJobScores: the score:jobId:* entries, newest first. -/
def Storage.getJobScores (st : Storage) (jobId : String) : List JobScore :=
  sortByScoredAtDesc (st.scores.filter (fun s => s.jobId == jobId))

/-- markJobAsSeen: keyv.set of seen:jobId (idempotent set insertion). -/
def Storage.markJobAsSeen (st : Storage) (jobId : String) : Storage :=
  if st.seen.contains jobId then st else { st with seen := st.seen ++ [jobId] }

def Storage.getSeenJobIds (st : Storage) : List String :=
  st.seen

/-- clearSeenJobs: deletes every seen:* key and nothing else. -/
def Storage.clearSeenJobs (st : Storage) : Storage :=
  { st with seen := [] }

/-! ## Scoring stage (application/use-cases/score-jobs.ts) -/

structure ScoreRequest where
  jobs : List Job
  cvContent : String
  cvVersion : String
  minScore : Int
  usePrefilter : Bool

/-- Oracle for the collaborators scoreJobs consults: the LLM service's
prefilterJob and scoreJob calls, and the outcome of the storage write
performed by storage.saveJobScore (which is an Effect that can fail). -/
structure ScoreEnv where
  now : Int
  prefilterJob : Job → String → Except String Bool
  scoreJob : Job → String → Except String JobScore
  saveScoreResult : JobScore → Except String Unit

/-- Events recording the externally visible calls of the scoring stage. -/
inductive ScoreEvent where
  | prefilterCall (jobId : String)
  | scoreCall (jobId : String)
  | savedScore (s : JobScore)
deriving Repr, DecidableEq

/-- Spread of a score record onto a job (the { ...job, score, rationale,
gaps } object literals of score-jobs.ts). -/
def withScore (job : Job) (score : Int) (rationale : String)
    (gaps : List String) : Job :=
  { job with score := some score, rationale := some rationale, gaps := some gaps }

/-- The recency predicate of the score cache:
score.cvVersion === request.cvVersion and
Date.now() - score.scoredAt.getTime() < 24 * 60 * 60 * 1000. -/
def isRecentScore (now : Int) (cvVersion : String) (s : JobScore) : Bool :=
  s.cvVersion == cvVersion && now - s.scoredAt < 24 * 60 * 60 * 1000

/-- The inner scoreJob closure of score-jobs.ts for a single job.
Returns the optional scored job (null when dropped), the storage after
any saveJobScore write, and the trace of collaborator calls made. -/
def scoreOne (env : ScoreEnv) (req : ScoreRequest) (st : Storage) (job : Job) :
    Except String (Option Job × Storage × List ScoreEvent) :=
  let existingScores := st.getJobScores job.id.value
  match existingScores.find? (isRecentScore env.now req.cvVersion) with
  | some recentScore =>
      .ok (some (withScore job recentScore.score recentScore.rationale recentScore.gaps),
           st, [])
  | none =>
      let pf : Bool × List ScoreEvent :=
        if req.usePrefilter then
          match env.prefilterJob job req.cvContent with
          | .ok b => (b, [.prefilterCall job.id.value])
          | .error _ => (true, [.prefilterCall job.id.value])
        else (true, [])
      if !pf.1 then
        .ok (none, st, pf.2)
      else
        match env.scoreJob job req.cvContent with
        | .error e => .error ("Failed to score job: " ++ e)
        | .ok jobScore =>
          match env.saveScoreResult jobScore with
          | .error e => .error ("Failed to save job score: " ++ e)
          | .ok _ =>
            let st' := st.saveJobScore jobScore
            let evs := pf.2 ++ [.scoreCall job.id.value, .savedScore jobScore]
            if req.minScore ≤ jobScore.score then
              .ok (some (withScore job jobScore.score jobScore.rationale jobScore.gaps),
                   st', evs)
            else
              .ok (none, st', evs)

/-- Effect.forEach(request.jobs, scoreJob): sequential, fail-fast. -/
def scoreJobsGo (env : ScoreEnv) (req : ScoreRequest) (st : Storage) :
    List Job → Except String (List (Option Job) × Storage × List ScoreEvent)
  | [] => .ok ([], st, [])
  | job :: rest =>
    match scoreOne env req st job with
    | .error e => .error e
    | .ok (r, st', evs) =>
      match scoreJobsGo env req st' rest with
      | .error e => .error e
      | .ok (rs, st'', evs') => .ok (r :: rs, st'', evs ++ evs')

/-- scoreJobs use case: score each job sequentially, then filter out the
nulls. -/
def scoreJobs (env : ScoreEnv) (req : ScoreRequest) (st : Storage) :
    Except String (List Job × Storage × List ScoreEvent) :=
  match scoreJobsGo env req st req.jobs with
  | .error e => .error e
  | .ok (results, st', evs) => .ok (results.filterMap id, st', evs)

/-! ## Extraction stage (application/use-cases/process-jobs.ts) -/

structure RawJobData where
  content : String
  url : String
  timestamp : Int
deriving Repr, DecidableEq

structure ProcessRequest where
  rawJobs : List RawJobData
  retryFailed : Bool

/-- Per-item extraction with Effect.retry({ times: retryFailed ? 1 : 0 })
and Effect.catchAll(() => Effect.succeed(null)).  The oracle takes the
raw content and the attempt index (0 = first call, 1 = the single
retry), since the LLM call is re-issued on retry and may then differ.
Returns the recovered result (none models the null of a dropped item)
together with the number of extractJobData calls that were made. -/
def extractWithRetry (extractJobData : String → Nat → Except String Job)
    (retryFailed : Bool) (rawJob : RawJobData) : Option Job × Nat :=
  match extractJobData rawJob.content 0 with
  | .ok job => (some job, 1)
  | .error _ =>
    if retryFailed then
      match extractJobData rawJob.content 1 with
      | .ok job => (some job, 2)
      | .error _ => (none, 2)
    else (none, 1)

/-- processJobs use case: map every raw item through extraction, then
filter the nulls out.  Per-item failures are all caught by the catchAll,
so the stage as a whole always succeeds; its Except error channel (the
code's ProcessJobsError) is structurally unreachable. -/
def processJobs (extractJobData : String → Nat → Except String Job)
    (req : ProcessRequest) : Except String (List Job) :=
  .ok ((req.rawJobs.map
    (fun rawJob => (extractWithRetry extractJobData req.retryFailed rawJob).1)).filterMap id)

/-! ## Scrape coordinator (application/use-cases/scrape-jobs.ts) -/

structure ScrapeRequest where
  criteria : JobCriteria
  session : AuthSession
  runId : String
  since : Option Int

/-- Per-job body of the Effect.forEach of scrape-jobs.ts: saveJob, then
markJobAsSeen. -/
def scrapeStep (st : Storage) (job : Job) : Storage :=
  ((st.saveJob job).1).markJobAsSeen job.id.value

/-- scrapeJobs use case.  The storage reads/writes are modelled as pure
state operations (their failure paths only re-tag the message), the
scraper collaborator as an Except oracle. -/
def scrapeJobs (scraper : JobCriteria → AuthSession → Except String (List Job))
    (st : Storage) (req : ScrapeRequest) : Except String (List Job × Storage) :=
  let existingJobs := st.getJobsByCriteria req.criteria.id req.since
  if existingJobs.length > 0 && req.since.isNone then
    .ok (existingJobs, st)
  else
    match scraper req.criteria req.session with
    | .error e => .error ("Failed to scrape jobs: " ++ e)
    | .ok scrapedJobs =>
      let seenJobIds := st.getSeenJobIds
      let newJobs := scrapedJobs.filter (fun job => !(seenJobIds.contains job.id.value))
      .ok (newJobs, newJobs.foldl scrapeStep st)

/-! ## Notification dispatcher (application/use-cases/send-notifications.ts) -/

structure NotifyRequest where
  jobs : List Job
  runId : String
  criteria : String
  sendAlerts : Bool
  alertThreshold : Int

/-- Telegram calls that sendNotifications issues.  An alertAttempt is
recorded whether or not the send succeeds, because the per-alert
catchAll swallows the failure and continues. -/
inductive TelegramEvent where
  | digestSent (jobIds : List String) (runId : String)
  | alertAttempt (jobId : String) (score : Int)
deriving Repr, DecidableEq

structure TelegramEnv where
  sendJobDigest : List Job → String → Except String Unit
  sendJobAlert : Job → Int → Except String Unit

/-- sendNotifications use case.  Mirrors send-notifications.ts: an empty
jobs list returns immediately (no telegram call at all); otherwise the
digest is sent (its failure is surfaced) and, when sendAlerts, one alert
per job with (score ?? 0) >= alertThreshold is attempted with failures
ignored. -/
def sendNotifications (tg : TelegramEnv) (req : NotifyRequest) :
    Except String (List TelegramEvent) :=
  if req.jobs.length == 0 then
    .ok []
  else
    match tg.sendJobDigest req.jobs req.runId with
    | .error e => .error ("Failed to send digest: " ++ e)
    | .ok _ =>
      let digestEvents := [TelegramEvent.digestSent (req.jobs.map (·.id.value)) req.runId]
      if req.sendAlerts then
        let highScoreJobs := req.jobs.filter (fun job => req.alertThreshold ≤ job.score.getD 0)
        .ok (digestEvents ++
          highScoreJobs.map (fun job => .alertAttempt job.id.value (job.score.getD 0)))
      else
        .ok digestEvents

/-- Number of digest messages in a telegram trace. -/
def countDigests (evs : List TelegramEvent) : Nat :=
  (evs.filter fun e => match e with | .digestSent _ _ => true | _ => false).length

/-- Number of individual alert sends in a telegram trace. -/
def countAlerts (evs : List TelegramEvent) : Nat :=
  (evs.filter fun e => match e with | .alertAttempt _ _ => true | _ => false).length

/-! ## Session manager (application/use-cases/authenticate.ts) -/

/-- Oracle for the scraping collaborator used by authenticate, plus a
reference clock used only to state expiry properties (authenticate.ts
itself never reads a clock). -/
structure AuthEnv where
  now : Int
  isLoggedIn : AuthSession → Except String Bool
  login : Except String AuthSession

/-- Interactive login followed by saveSession: returns the fresh session
and the new persisted session slot. -/
def loginAndSave (env : AuthEnv) : Except String (AuthSession × Option AuthSession) :=
  match env.login with
  | .error e => .error ("Authentication failed: " ++ e)
  | .ok session => .ok (session, some session)

/-- authenticate use case over the persisted session slot (storage
getSession/deleteSession/saveSession modelled as reads and writes of an
Option AuthSession; their own failure paths only re-tag messages).
Returns the session handed to the caller together with the final
persisted slot. -/
def authenticate (env : AuthEnv) (forceReauth : Bool) (st : Option AuthSession) :
    Except String (AuthSession × Option AuthSession) :=
  if !forceReauth then
    match st with
    | some session =>
      match env.isLoggedIn session with
      | .error e => .error ("Failed to check login status: " ++ e)
      | .ok true => .ok (session, st)
      | .ok false => loginAndSave env
    | none => loginAndSave env
  else
    loginAndSave env

/-! ## Run orchestrator (application/services/job-hunter-service.ts) -/

/-- Stage oracles for runJobDiscovery: the orchestrator treats each use
case and each storage.saveJobRun as an awaited call that may fail.  The
trace of a run is the list of JobRun records successfully persisted, in
order (each one overwrites the run:runId key). -/
structure PipelineEnv where
  runId : String
  now : Int
  authResult : Except String AuthSession
  scrapeResult : AuthSession → Except String (List Job)
  processResult : List RawJobData → Except String (List Job)
  scoreResult : List Job → Except String (List Job)
  notifyResult : List Job → Except String Unit
  saveRunResult : JobRun → Except String Unit

/-- The initial RUNNING record created at the top of runJobDiscovery. -/
def initialRun (env : PipelineEnv) (criteriaId : String) : JobRun :=
  { id := env.runId, criteriaId := criteriaId, startedAt := env.now,
    completedAt := none, jobsFound := 0, jobsProcessed := 0, jobsScored := 0,
    errors := [], status := .RUNNING }

/-- The rawJobs mapping of job-hunter-service.ts:
{ content: job.description, url: job.applyUrl, timestamp: job.postedAt }. -/
def jobToRaw (job : Job) : RawJobData :=
  { content := job.description, url := job.applyUrl, timestamp := job.postedAt }

/-- runJobDiscovery: the orchestrator.  Its body is an Effect.gen
generator in which every stage is a yield*-ed Effect.  When a yielded
effect fails, Effect.gen abandons the generator without resuming it
(iterator.throw is never invoked), so the surrounding JS try/catch and
its FAILED-persist are dead code for stage failures — nothing in the
generator body throws synchronously.  The embedding therefore lets every
stage failure propagate directly on the error channel with no further
persist.  Returns the result handed to the caller together with the
trace of successfully persisted JobRun records, in order (each persist
overwrites the run:runId key). -/
def runJobDiscovery (env : PipelineEnv) (criteria : JobCriteria) (dryRun : Bool) :
    Except String JobRun × List JobRun :=
  let run := initialRun env criteria.id
  match env.saveRunResult run with
  | .error e => (.error e, [])
  | .ok _ =>
    let t0 := [run]
    match env.authResult with
    | .error e => (.error e, t0)
    | .ok session =>
      match env.scrapeResult session with
      | .error e => (.error e, t0)
      | .ok scrapedJobs =>
        let updatedRun1 := { run with jobsFound := scrapedJobs.length }
        match env.saveRunResult updatedRun1 with
        | .error e => (.error e, t0)
        | .ok _ =>
          let t1 := t0 ++ [updatedRun1]
          if dryRun then
            (.ok { updatedRun1 with status := .COMPLETED, completedAt := some env.now }, t1)
          else
            match env.processResult (scrapedJobs.map jobToRaw) with
            | .error e => (.error e, t1)
            | .ok processedJobs =>
              let updatedRun2 := { updatedRun1 with jobsProcessed := processedJobs.length }
              match env.saveRunResult updatedRun2 with
              | .error e => (.error e, t1)
              | .ok _ =>
                let t2 := t1 ++ [updatedRun2]
                match env.scoreResult processedJobs with
                | .error e => (.error e, t2)
                | .ok scoredJobs =>
                  let updatedRun3 := { updatedRun2 with jobsScored := scoredJobs.length }
                  match env.saveRunResult updatedRun3 with
                  | .error e => (.error e, t2)
                  | .ok _ =>
                    let t3 := t2 ++ [updatedRun3]
                    match env.notifyResult scoredJobs with
                    | .error e => (.error e, t3)
                    | .ok _ =>
                      let completedRun := { updatedRun3 with
                        status := .COMPLETED, completedAt := some env.now }
                      match env.saveRunResult completedRun with
                      | .error e => (.error e, t3)
                      | .ok _ => (.ok completedRun, t3 ++ [completedRun])

/-! ## purgeCache (application/services/job-hunter-service.ts) -/

inductive PurgeType where
  | cache
  | all
deriving Repr, DecidableEq

/-- purgeCache: for "all", deleteSession first; in both variants,
clearSeenJobs. -/
def purgeCache (t : PurgeType) (st : Storage) : Storage :=
  let st1 := match t with
    | .all => st.deleteSession
    | .cache => st
  st1.clearSeenJobs

/-! ## Concrete fixtures (mirroring the repository's test fixtures) -/

def sampleJob (i : String) : Job :=
  { id := ⟨i⟩, title := "TypeScript Developer", company := "Tech Corp",
    location := "Remote", remotePolicy := "REMOTE", seniority := "SENIOR",
    employmentType := "FULL_TIME", postedAt := 0,
    description := "desc " ++ i, applyUrl := "https://example.com/jobs/" ++ i,
    source := "linkedin", createdAt := 0, updatedAt := 0 }

def sampleSession : AuthSession :=
  { id := "session-123", cookies := ["session_id=abc123"], userAgent := "Mozilla/5.0",
    expiresAt := 86400000, createdAt := 0, updatedAt := 0 }

def sampleCriteria : JobCriteria :=
  { id := "criteria-1", keywords := ["typescript", "react"], location := "Remote",
    enabled := true }

def sampleScore (jobId : String) (score : Int) (cvVersion : String)
    (scoredAt : Int) : JobScore :=
  { jobId := jobId, score := score, rationale := "r", gaps := [],
    cvVersion := cvVersion, scoredAt := scoredAt }

/-! ## C10 — purgeCache frame property -/

/-- C10: purgeCache("cache") clears only the seen-id set, and
purgeCache("all") additionally deletes the persisted auth session;
neither variant touches stored Job, JobRun or JobScore records, and in
both variants the seen-set ends empty so every formerly seen id is again
eligible for ingestion. -/
theorem purgeCache_frame (st : Storage) :
    purgeCache .cache st =
      { jobs := st.jobs, session := st.session, runs := st.runs,
        scores := st.scores, seen := [] } ∧
    purgeCache .all st =
      { jobs := st.jobs, session := none, runs := st.runs,
        scores := st.scores, seen := [] } := by
  constructor <;> rfl

/-! ## C3 — notification dispatcher on an empty jobs list -/

def tgOk : TelegramEnv :=
  { sendJobDigest := fun _ _ => .ok (), sendJobAlert := fun _ _ => .ok () }

def emptyNotifyReq : NotifyRequest :=
  { jobs := [], runId := "run-1", criteria := "typescript, react in Remote",
    sendAlerts := true, alertThreshold := 85 }

/-- Digest messages actually sent by an invocation outcome. -/
def digestsSent (r : Except String (List TelegramEvent)) : Nat :=
  match r with
  | .ok evs => countDigests evs
  | .error _ => 0

/-- Alert messages actually attempted by an invocation outcome. -/
def alertsSent (r : Except String (List TelegramEvent)) : Nat :=
  match r with
  | .ok evs => countAlerts evs
  | .error _ => 0

/-- C3 counterexample: invoked with an empty jobs list (and a telegram
collaborator that would accept anything), the dispatcher succeeds but
sends zero digest messages — not the one "no new jobs" digest the claim
requires. -/
theorem sendNotifications_empty_counterexample :
    sendNotifications tgOk emptyNotifyReq = .ok [] ∧
    digestsSent (sendNotifications tgOk emptyNotifyReq) = 0 ∧
    digestsSent (sendNotifications tgOk emptyNotifyReq) ≠ 1 ∧
    alertsSent (sendNotifications tgOk emptyNotifyReq) = 0 :=
  ⟨rfl, rfl, by decide, rfl⟩

/-- C3 amended: when the Notification Dispatcher is invoked with an
empty jobs list it returns immediately and succeeds, sending no message
at all — zero digests and zero alerts. -/
theorem sendNotifications_empty (tg : TelegramEnv) (req : NotifyRequest)
    (h : req.jobs = []) :
    sendNotifications tg req = .ok [] := by
  unfold sendNotifications
  simp [h]

/-- C3 witness: the amended theorem applied at the concrete empty
request. -/
theorem sendNotifications_empty_witness :
    emptyNotifyReq.jobs = [] ∧ sendNotifications tgOk emptyNotifyReq = .ok [] :=
  ⟨rfl, sendNotifications_empty tgOk emptyNotifyReq rfl⟩

/-! ## C9 — authenticate and session expiry -/

def expiredSession : AuthSession :=
  { id := "session-expired", cookies := ["session_id=abc123"],
    userAgent := "Mozilla/5.0", expiresAt := 0, createdAt := -100, updatedAt := -100 }

/-- A scraping collaborator whose live check accepts every session; the
interactive login is never reached in the scenario below. -/
def liveAcceptEnv : AuthEnv :=
  { now := 1000, isLoggedIn := fun _ => .ok true, login := .error "login not reached" }

/-- C9 counterexample: a persisted session whose expiresAt (0) lies
before the clock (1000) but which the live check still accepts is
returned unchanged — authenticate never compares expiresAt, so it can
return a session whose expiry lies in the past. -/
theorem authenticate_expired_counterexample :
    authenticate liveAcceptEnv false (some expiredSession) =
      .ok (expiredSession, some expiredSession) ∧
    expiredSession.expiresAt < liveAcceptEnv.now :=
  ⟨rfl, by decide⟩

/-- C9 amended: a persisted session that is absent or rejected by the
live check is never returned: rejection or absence leads to the
interactive login flow (whose fresh session is persisted and returned),
while a session accepted by the live check is returned unchanged —
expiry is enforced solely through the live check, never by comparing
expiresAt, so the returned session's expiresAt may lie in the past. -/
theorem authenticate_live_check (env : AuthEnv) (s : AuthSession) :
    authenticate env false none = loginAndSave env ∧
    (env.isLoggedIn s = .ok false → authenticate env false (some s) = loginAndSave env) ∧
    (env.isLoggedIn s = .ok true → authenticate env false (some s) = .ok (s, some s)) := by
  refine ⟨rfl, ?_, ?_⟩ <;> intro h <;> simp [authenticate, h]

def freshSession : AuthSession :=
  { id := "session-new", cookies := ["session_id=xyz789"], userAgent := "Mozilla/5.0",
    expiresAt := 86400000, createdAt := 0, updatedAt := 0 }

def rejectEnv : AuthEnv :=
  { now := 0, isLoggedIn := fun _ => .ok false, login := .ok freshSession }

/-- C9 witness: the amended theorem applied to a session the live check
rejects — authenticate goes through the interactive login. -/
theorem authenticate_live_check_witness :
    rejectEnv.isLoggedIn expiredSession = .ok false ∧
    authenticate rejectEnv false (some expiredSession) = loginAndSave rejectEnv :=
  ⟨rfl, (authenticate_live_check rejectEnv expiredSession).2.1 rfl⟩

/-! ## C5 — extraction stage fault tolerance -/

/-- C5: per item, a failing extraction is retried exactly once when
retryFailed is true (two calls) and not retried when it is false (one
call); a persistently failing item is dropped; the stage always succeeds
and its output is the input's successfully extracted jobs in input order
(a filterMap of the input), hence no longer than the input. -/
theorem processJobs_fault_tolerance (extractJobData : String → Nat → Except String Job)
    (req : ProcessRequest) :
    (∀ rawJob job, extractJobData rawJob.content 0 = .ok job →
        extractWithRetry extractJobData req.retryFailed rawJob = (some job, 1)) ∧
    (∀ rawJob e, extractJobData rawJob.content 0 = .error e → req.retryFailed = true →
        extractWithRetry extractJobData req.retryFailed rawJob =
          ((extractJobData rawJob.content 1).toOption, 2)) ∧
    (∀ rawJob e, extractJobData rawJob.content 0 = .error e → req.retryFailed = false →
        extractWithRetry extractJobData req.retryFailed rawJob = (none, 1)) ∧
    processJobs extractJobData req =
      .ok (req.rawJobs.filterMap
        (fun rawJob => (extractWithRetry extractJobData req.retryFailed rawJob).1)) ∧
    (∀ out, processJobs extractJobData req = .ok out → out.length ≤ req.rawJobs.length) := by
  refine ⟨?_, ?_, ?_, ?_, ?_⟩
  · intro rawJob job h
    unfold extractWithRetry
    rw [h]
  · intro rawJob e h hr
    unfold extractWithRetry
    rw [h, hr]
    simp only [if_true]
    cases h1 : extractJobData rawJob.content 1 <;> simp [Except.toOption]
  · intro rawJob e h hr
    unfold extractWithRetry
    rw [h, hr]
    simp
  · unfold processJobs
    rw [List.filterMap_map]
    rfl
  · intro out hout
    unfold processJobs at hout
    rw [List.filterMap_map] at hout
    cases hout
    calc (List.filterMap (id ∘ fun rawJob =>
            (extractWithRetry extractJobData req.retryFailed rawJob).1) req.rawJobs).length
        ≤ req.rawJobs.length := List.length_filterMap_le _ _

def rawItem (i : String) : RawJobData :=
  { content := i, url := "https://example.com/raw/" ++ i, timestamp := 0 }

/-- An extraction collaborator for which the item "raw-2" always fails
(on the first call and on the retry) and every other item succeeds. -/
def extractFail2 (content : String) (_attempt : Nat) : Except String Job :=
  if content == "raw-2" then .error "schema validation failed" else .ok (sampleJob content)

def processReq3 : ProcessRequest :=
  { rawJobs := [rawItem "raw-1", rawItem "raw-2", rawItem "raw-3"], retryFailed := true }

/-- C5 witness: on three raw items whose second always fails extraction,
the failing item is retried exactly once (two calls) and the stage
succeeds with exactly items 1 and 3, in that order. -/
theorem processJobs_fault_tolerance_witness :
    extractFail2 (rawItem "raw-2").content 0 = .error "schema validation failed" ∧
    extractWithRetry extractFail2 processReq3.retryFailed (rawItem "raw-2") =
      ((extractFail2 (rawItem "raw-2").content 1).toOption, 2) ∧
    processJobs extractFail2 processReq3 =
      .ok (processReq3.rawJobs.filterMap
        (fun rawJob => (extractWithRetry extractFail2 processReq3.retryFailed rawJob).1)) ∧
    processReq3.rawJobs.filterMap
        (fun rawJob => (extractWithRetry extractFail2 processReq3.retryFailed rawJob).1) =
      [sampleJob "raw-1", sampleJob "raw-3"] :=
  ⟨rfl,
   (processJobs_fault_tolerance extractFail2 processReq3).2.1 (rawItem "raw-2")
     "schema validation failed" rfl rfl,
   (processJobs_fault_tolerance extractFail2 processReq3).2.2.2.1,
   by decide⟩

/-! ## C2 — threshold filtering with unconditional score persistence -/

/-- C2: a job that reaches full scoring (no fresh cached score, not
rejected by the prefilter) has its JobScore persisted unconditionally —
st.saveJobScore js appears in the resulting state and savedScore js in
the call trace — while the job itself is included in the stage output
if and only if its score is at least minScore. -/
theorem scoreOne_fresh_threshold (env : ScoreEnv) (req : ScoreRequest) (st : Storage)
    (job : Job) (js : JobScore)
    (hmiss : (st.getJobScores job.id.value).find? (isRecentScore env.now req.cvVersion) = none)
    (hpf : req.usePrefilter = false ∨ env.prefilterJob job req.cvContent = .ok true ∨
           ∃ e, env.prefilterJob job req.cvContent = .error e)
    (hscore : env.scoreJob job req.cvContent = .ok js)
    (hsave : env.saveScoreResult js = .ok ()) :
    scoreOne env req st job =
      .ok ((if req.minScore ≤ js.score then
              some (withScore job js.score js.rationale js.gaps)
            else none),
           st.saveJobScore js,
           (if req.usePrefilter then [ScoreEvent.prefilterCall job.id.value] else []) ++
             [ScoreEvent.scoreCall job.id.value, ScoreEvent.savedScore js]) := by
  simp only [scoreOne]
  rw [hmiss]
  rcases hpf with h | h | ⟨e, h⟩ <;>
    simp only [h, hscore, hsave, Bool.false_eq_true, if_false, if_true] <;>
    by_cases hm : req.minScore ≤ js.score <;>
    by_cases hp : req.usePrefilter = true <;>
    simp [hm, hp]

def scoreEnvAt (s : Int) : ScoreEnv :=
  { now := 0, prefilterJob := fun _ _ => .ok true,
    scoreJob := fun job _ => .ok (sampleScore job.id.value s "1.0" 0),
    saveScoreResult := fun _ => .ok () }

def scoreReq70 : ScoreRequest :=
  { jobs := [sampleJob "job-1"], cvContent := "", cvVersion := "1.0",
    minScore := 70, usePrefilter := true }

/-- C2 witness: with minScore 70, a job scored 69 is excluded from the
output while JobScore(69) is still persisted, and a job scored 70 is
included; both facts by applying the threshold theorem at the concrete
inputs. -/
theorem scoreOne_fresh_threshold_witness :
    (((Storage.mk [] none [] [] []).getJobScores "job-1").find?
        (isRecentScore 0 "1.0") = none) ∧
    scoreOne (scoreEnvAt 69) scoreReq70 {} (sampleJob "job-1") =
      .ok (none,
           Storage.saveJobScore {} (sampleScore "job-1" 69 "1.0" 0),
           [ScoreEvent.prefilterCall "job-1", ScoreEvent.scoreCall "job-1",
            ScoreEvent.savedScore (sampleScore "job-1" 69 "1.0" 0)]) ∧
    scoreOne (scoreEnvAt 70) scoreReq70 {} (sampleJob "job-1") =
      .ok (some (withScore (sampleJob "job-1") 70 "r" []),
           Storage.saveJobScore {} (sampleScore "job-1" 70 "1.0" 0),
           [ScoreEvent.prefilterCall "job-1", ScoreEvent.scoreCall "job-1",
            ScoreEvent.savedScore (sampleScore "job-1" 70 "1.0" 0)]) := by
  refine ⟨by decide, ?_, ?_⟩
  · have h := scoreOne_fresh_threshold (scoreEnvAt 69) scoreReq70 {} (sampleJob "job-1")
      (sampleScore "job-1" 69 "1.0" 0) (by decide) (Or.inr (Or.inl rfl)) rfl rfl
    simpa [scoreReq70, sampleJob, sampleScore] using h
  · have h := scoreOne_fresh_threshold (scoreEnvAt 70) scoreReq70 {} (sampleJob "job-1")
      (sampleScore "job-1" 70 "1.0" 0) (by decide) (Or.inr (Or.inl rfl)) rfl rfl
    simpa [scoreReq70, sampleJob, sampleScore, withScore] using h

/-! ## C4 — score cache freshness -/

/-- C4: a stored JobScore matching the requested cv version and younger
than 24 hours is reused as-is: the job is returned with the cached
score, the storage is unchanged and no collaborator call happens (empty
trace, hence no prefilter call, no scoring call and no persisted
JobScore).  Without such a record, any successful outcome carries at
least one AI-collaborator call for the job (the prefilter check or the
full scoring call). -/
theorem scoreOne_cache (env : ScoreEnv) (req : ScoreRequest) (st : Storage) (job : Job) :
    (∀ s, (st.getJobScores job.id.value).find? (isRecentScore env.now req.cvVersion) = some s →
      scoreOne env req st job =
        .ok (some (withScore job s.score s.rationale s.gaps), st, [])) ∧
    ((st.getJobScores job.id.value).find? (isRecentScore env.now req.cvVersion) = none →
      ∀ r st' evs, scoreOne env req st job = .ok (r, st', evs) →
        ScoreEvent.prefilterCall job.id.value ∈ evs ∨
        ScoreEvent.scoreCall job.id.value ∈ evs) := by
  constructor
  · intro s hs
    simp only [scoreOne]
    rw [hs]
  · intro hmiss r st' evs h
    simp only [scoreOne] at h
    rw [hmiss] at h
    by_cases hu : req.usePrefilter
    · rcases hpf : env.prefilterJob job req.cvContent with e | b
      · simp only [hu, hpf, if_true] at h
        rcases hsc : env.scoreJob job req.cvContent with e2 | js
        · simp [hsc] at h
        · rcases hsv : env.saveScoreResult js with e3 | u
          · simp [hsc, hsv] at h
          · by_cases hm : req.minScore ≤ js.score <;>
              simp [hsc, hsv, hm] at h <;>
              exact Or.inl (by simp [h.2.2.symm])
      · cases b
        · simp only [hu, hpf, if_true] at h
          simp at h
          exact Or.inl (by simp [h.2.2.symm])
        · simp only [hu, hpf, if_true] at h
          rcases hsc : env.scoreJob job req.cvContent with e2 | js
          · simp [hsc] at h
          · rcases hsv : env.saveScoreResult js with e3 | u
            · simp [hsc, hsv] at h
            · by_cases hm : req.minScore ≤ js.score <;>
                simp [hsc, hsv, hm] at h <;>
                exact Or.inl (by simp [h.2.2.symm])
    · simp only [Bool.not_eq_true] at hu
      simp only [hu, Bool.false_eq_true, if_false] at h
      rcases hsc : env.scoreJob job req.cvContent with e2 | js
      · simp [hsc] at h
      · rcases hsv : env.saveScoreResult js with e3 | u
        · simp [hsc, hsv] at h
        · by_cases hm : req.minScore ≤ js.score <;>
            simp [hsc, hsv, hm] at h <;>
            exact Or.inr (by simp [h.2.2.symm])

def cachedStore : Storage :=
  { jobs := [], session := none, runs := [],
    scores := [sampleScore "job-1" 90 "1.0" 0], seen := [] }

def scoreEnvCached : ScoreEnv :=
  { now := 1000, prefilterJob := fun _ _ => .error "collaborator must not be called",
    scoreJob := fun _ _ => .error "collaborator must not be called",
    saveScoreResult := fun _ => .error "collaborator must not be called" }

def scoreReqCached : ScoreRequest :=
  { jobs := [sampleJob "job-1"], cvContent := "", cvVersion := "1.0",
    minScore := 70, usePrefilter := true }

/-- C4 witness: a 1-second-old JobScore for the requested cv version is
found fresh and reused — the cache theorem applied at a concrete store
whose collaborators would all fail if consulted. -/
theorem scoreOne_cache_witness :
    ((cachedStore.getJobScores "job-1").find? (isRecentScore 1000 "1.0") =
        some (sampleScore "job-1" 90 "1.0" 0)) ∧
    scoreOne scoreEnvCached scoreReqCached cachedStore (sampleJob "job-1") =
      .ok (some (withScore (sampleJob "job-1") 90 "r" []), cachedStore, []) :=
  ⟨by decide,
   (scoreOne_cache scoreEnvCached scoreReqCached cachedStore (sampleJob "job-1")).1
     (sampleScore "job-1" 90 "1.0" 0) (by decide)⟩

/-! ## C8 — prefilter fail-open, explicit-reject drop, fatal scoring errors -/

/-- C8: with the prefilter enabled and no fresh cached score, a
prefilter call failure is fail-open (the job proceeds to full scoring
exactly as if the prefilter had approved it); the job is dropped with no
score computed, no storage change and no persisted JobScore only on the
explicit negative prefilter result; a failing full scoring call, or a
failing JobScore persist, turns into an error of the single-job step,
and any such error fails the whole scoreJobs invocation. -/
theorem scoreJobs_prefilter_policy (env : ScoreEnv) (req : ScoreRequest) (st : Storage)
    (job : Job) :
    (∀ e js,
      (st.getJobScores job.id.value).find? (isRecentScore env.now req.cvVersion) = none →
      req.usePrefilter = true →
      env.prefilterJob job req.cvContent = .error e →
      env.scoreJob job req.cvContent = .ok js →
      env.saveScoreResult js = .ok () →
      scoreOne env req st job =
        .ok ((if req.minScore ≤ js.score then
                some (withScore job js.score js.rationale js.gaps) else none),
             st.saveJobScore js,
             [.prefilterCall job.id.value, .scoreCall job.id.value, .savedScore js])) ∧
    ((st.getJobScores job.id.value).find? (isRecentScore env.now req.cvVersion) = none →
      req.usePrefilter = true →
      env.prefilterJob job req.cvContent = .ok false →
      scoreOne env req st job = .ok (none, st, [.prefilterCall job.id.value])) ∧
    (∀ e,
      (st.getJobScores job.id.value).find? (isRecentScore env.now req.cvVersion) = none →
      (req.usePrefilter = false ∨ env.prefilterJob job req.cvContent = .ok true ∨
        ∃ e2, env.prefilterJob job req.cvContent = .error e2) →
      env.scoreJob job req.cvContent = .error e →
      scoreOne env req st job = .error ("Failed to score job: " ++ e)) ∧
    (∀ e js,
      (st.getJobScores job.id.value).find? (isRecentScore env.now req.cvVersion) = none →
      (req.usePrefilter = false ∨ env.prefilterJob job req.cvContent = .ok true ∨
        ∃ e2, env.prefilterJob job req.cvContent = .error e2) →
      env.scoreJob job req.cvContent = .ok js →
      env.saveScoreResult js = .error e →
      scoreOne env req st job = .error ("Failed to save job score: " ++ e)) ∧
    (∀ e rest, req.jobs = job :: rest → scoreOne env req st job = .error e →
      scoreJobs env req st = .error e) := by
  refine ⟨?_, ?_, ?_, ?_, ?_⟩
  · intro e js hmiss hu hpf hsc hsv
    simp only [scoreOne]
    rw [hmiss]
    by_cases hm : req.minScore ≤ js.score <;> simp [hu, hpf, hsc, hsv, hm]
  · intro hmiss hu hpf
    simp only [scoreOne]
    rw [hmiss]
    simp [hu, hpf]
  · intro e hmiss hpf hsc
    simp only [scoreOne]
    rw [hmiss]
    rcases hpf with h | h | ⟨e2, h⟩ <;>
      by_cases hp : req.usePrefilter = true <;>
      simp [h, hp, hsc]
  · intro e js hmiss hpf hsc hsv
    simp only [scoreOne]
    rw [hmiss]
    rcases hpf with h | h | ⟨e2, h⟩ <;>
      by_cases hp : req.usePrefilter = true <;>
      simp [h, hp, hsc, hsv]
  · intro e rest hjobs herr
    unfold scoreJobs
    rw [hjobs]
    unfold scoreJobsGo
    rw [herr]

def scoreEnvReject : ScoreEnv :=
  { now := 0, prefilterJob := fun _ _ => .ok false,
    scoreJob := fun _ _ => .error "scoring must not be reached",
    saveScoreResult := fun _ => .error "no score may be persisted" }

/-- C8 witness: a job the prefilter explicitly rejects is dropped with
untouched storage and no scoring call — the policy theorem's
explicit-negative conjunct applied at a concrete input. -/
theorem scoreJobs_prefilter_policy_witness :
    (((Storage.mk [] none [] [] []).getJobScores "job-1").find?
        (isRecentScore 0 "1.0") = none) ∧
    scoreReq70.usePrefilter = true ∧
    scoreEnvReject.prefilterJob (sampleJob "job-1") scoreReq70.cvContent = .ok false ∧
    scoreOne scoreEnvReject scoreReq70 {} (sampleJob "job-1") =
      .ok (none, {}, [.prefilterCall "job-1"]) :=
  ⟨by decide, rfl, rfl,
   (scoreJobs_prefilter_policy scoreEnvReject scoreReq70 {} (sampleJob "job-1")).2.1
     (by decide) rfl rfl⟩

/-! ## C6 — scrape coordinator cross-run de-duplication -/

/-- Identifiers of the persisted job:* entries. -/
def jobIds (st : Storage) : List String :=
  st.jobs.map (fun j => j.id.value)

theorem markJobAsSeen_mem (st : Storage) (jobId : String) :
    jobId ∈ (st.markJobAsSeen jobId).seen := by
  unfold Storage.markJobAsSeen
  split
  · next h => simpa using h
  · simp

theorem markJobAsSeen_mono (st : Storage) (jobId i : String) (h : i ∈ st.seen) :
    i ∈ (st.markJobAsSeen jobId).seen := by
  unfold Storage.markJobAsSeen
  split <;> simp [h]

theorem markJobAsSeen_jobs (st : Storage) (i : String) :
    (st.markJobAsSeen i).jobs = st.jobs := by
  unfold Storage.markJobAsSeen
  split <;> rfl

theorem scrapeStep_seen_self (st : Storage) (j : Job) :
    j.id.value ∈ (scrapeStep st j).seen :=
  markJobAsSeen_mem _ _

theorem scrapeStep_seen_mono (st : Storage) (j : Job) (i : String) (h : i ∈ st.seen) :
    i ∈ (scrapeStep st j).seen :=
  markJobAsSeen_mono _ _ _ h

theorem upsertBy_key_mem {α : Type} (key : α → String) (x : α) (l : List α) :
    key x ∈ (upsertBy key x l).map key := by
  induction l with
  | nil => simp [upsertBy]
  | cons y ys ih =>
    unfold upsertBy
    split
    · simp
    · simpa using Or.inr ih

theorem upsertBy_mem_mono {α : Type} (key : α → String) (x : α) (l : List α) (i : String)
    (h : i ∈ l.map key) : i ∈ (upsertBy key x l).map key := by
  induction l with
  | nil => simp at h
  | cons y ys ih =>
    simp only [List.map_cons, List.mem_cons] at h
    unfold upsertBy
    split
    · next hk =>
      have hyx : key y = key x := by simpa using hk
      rcases h with h1 | h1
      · simp [h1, hyx]
      · simp only [List.map_cons, List.mem_cons]
        exact Or.inr h1
    · rcases h with h1 | h1
      · simp [h1]
      · simp only [List.map_cons, List.mem_cons]
        exact Or.inr (ih h1)

theorem scrapeStep_jobIds_self (st : Storage) (j : Job) :
    j.id.value ∈ jobIds (scrapeStep st j) := by
  unfold scrapeStep jobIds
  rw [markJobAsSeen_jobs]
  exact upsertBy_key_mem _ j st.jobs

theorem scrapeStep_jobIds_mono (st : Storage) (j : Job) (i : String)
    (h : i ∈ jobIds st) : i ∈ jobIds (scrapeStep st j) := by
  unfold scrapeStep jobIds
  rw [markJobAsSeen_jobs]
  exact upsertBy_mem_mono _ j st.jobs i h

theorem foldl_scrapeStep_seen (l : List Job) (st : Storage) (i : String)
    (h : i ∈ st.seen ∨ ∃ j, j ∈ l ∧ j.id.value = i) :
    i ∈ (l.foldl scrapeStep st).seen := by
  induction l generalizing st with
  | nil =>
    rcases h with h | ⟨j, hj, _⟩
    · simpa using h
    · simp at hj
  | cons a as ih =>
    simp only [List.foldl_cons]
    rcases h with h | ⟨j, hj, hji⟩
    · exact ih _ (Or.inl (scrapeStep_seen_mono st a i h))
    · rcases List.mem_cons.mp hj with rfl | hj2
      · exact ih _ (Or.inl (hji ▸ scrapeStep_seen_self st j))
      · exact ih _ (Or.inr ⟨j, hj2, hji⟩)

theorem foldl_scrapeStep_jobIds (l : List Job) (st : Storage) (i : String)
    (h : i ∈ jobIds st ∨ ∃ j, j ∈ l ∧ j.id.value = i) :
    i ∈ jobIds (l.foldl scrapeStep st) := by
  induction l generalizing st with
  | nil =>
    rcases h with h | ⟨j, hj, _⟩
    · simpa using h
    · simp at hj
  | cons a as ih =>
    simp only [List.foldl_cons]
    rcases h with h | ⟨j, hj, hji⟩
    · exact ih _ (Or.inl (scrapeStep_jobIds_mono st a i h))
    · rcases List.mem_cons.mp hj with rfl | hj2
      · exact ih _ (Or.inl (hji ▸ scrapeStep_jobIds_self st j))
      · exact ih _ (Or.inr ⟨j, hj2, hji⟩)

/-- The newJobs list computed by scrapeJobs: scraped jobs whose id is
not yet in the seen-id set. -/
def newJobsOf (st : Storage) (scraped : List Job) : List Job :=
  scraped.filter (fun job => !(st.getSeenJobIds.contains job.id.value))

/-- C6: on the scraping path (no stored short-circuit hit), every
scraped job whose id is already in the persisted seen-id set is dropped;
exactly the remaining new jobs are returned, each of them is persisted
under job:* and its id marked seen in the final state; and when the
scraper returns only already-seen postings, zero jobs are persisted
and returned. -/
theorem scrapeJobs_dedup (scraper : JobCriteria → AuthSession → Except String (List Job))
    (st : Storage) (req : ScrapeRequest) (scraped : List Job)
    (hpath : st.getJobsByCriteria req.criteria.id req.since = [] ∨ req.since.isSome = true)
    (hscrape : scraper req.criteria req.session = .ok scraped) :
    scrapeJobs scraper st req =
      .ok (newJobsOf st scraped, (newJobsOf st scraped).foldl scrapeStep st) ∧
    (∀ j, j ∈ scraped → st.seen.contains j.id.value = true → j ∉ newJobsOf st scraped) ∧
    (∀ j, j ∈ newJobsOf st scraped → j ∈ scraped ∧ st.seen.contains j.id.value = false) ∧
    (∀ j, j ∈ newJobsOf st scraped →
      j.id.value ∈ ((newJobsOf st scraped).foldl scrapeStep st).seen ∧
      j.id.value ∈ jobIds ((newJobsOf st scraped).foldl scrapeStep st)) ∧
    ((∀ j, j ∈ scraped → st.seen.contains j.id.value = true) →
      newJobsOf st scraped = []) := by
  refine ⟨?_, ?_, ?_, ?_, ?_⟩
  · unfold scrapeJobs
    rcases hpath with h | h
    · rw [h]
      simp [hscrape, newJobsOf]
    · have hn : req.since.isNone = false := by
        rcases hs : req.since with _ | s
        · rw [hs] at h; simp at h
        · rfl
      rw [hn]
      simp [hscrape, newJobsOf]
  · intro j hj hseen hmem
    obtain ⟨-, h2⟩ := List.mem_filter.mp hmem
    rw [Storage.getSeenJobIds] at h2
    rw [hseen] at h2
    simp at h2
  · intro j hj
    obtain ⟨h1, h2⟩ := List.mem_filter.mp hj
    rw [Storage.getSeenJobIds] at h2
    exact ⟨h1, by simpa using h2⟩
  · intro j hj
    exact ⟨foldl_scrapeStep_seen _ _ _ (Or.inr ⟨j, hj, rfl⟩),
           foldl_scrapeStep_jobIds _ _ _ (Or.inr ⟨j, hj, rfl⟩)⟩
  · intro hall
    unfold newJobsOf
    refine List.filter_eq_nil_iff.mpr ?_
    intro a ha
    rw [Storage.getSeenJobIds]
    have hm := hall a ha
    simp only [List.contains_iff_exists_mem_beq] at hm
    simpa using hm

/-- A scraper returning one already-seen posting (job-1) and one new
posting (job-2), the spec's idempotent-scraping example. -/
def scraperTwo : JobCriteria → AuthSession → Except String (List Job) :=
  fun _ _ => .ok [sampleJob "job-1", sampleJob "job-2"]

def stSeen1 : Storage :=
  { jobs := [], session := none, runs := [], scores := [], seen := ["job-1"] }

def scrapeReqC : ScrapeRequest :=
  { criteria := sampleCriteria, session := sampleSession, runId := "run-1",
    since := some (-3600000) }

/-- C6 witness: with seen-set {"job-1"} and scraper output
[job-1, job-2], the coordinator returns (and persists) only job-2 —
the de-duplication theorem applied at the spec's example. -/
theorem scrapeJobs_dedup_witness :
    (stSeen1.getJobsByCriteria scrapeReqC.criteria.id scrapeReqC.since = [] ∨
      scrapeReqC.since.isSome = true) ∧
    scrapeJobs scraperTwo stSeen1 scrapeReqC =
      .ok (newJobsOf stSeen1 [sampleJob "job-1", sampleJob "job-2"],
           (newJobsOf stSeen1 [sampleJob "job-1", sampleJob "job-2"]).foldl
             scrapeStep stSeen1) ∧
    newJobsOf stSeen1 [sampleJob "job-1", sampleJob "job-2"] = [sampleJob "job-2"] :=
  ⟨Or.inl (by decide),
   (scrapeJobs_dedup scraperTwo stSeen1 scrapeReqC [sampleJob "job-1", sampleJob "job-2"]
     (Or.inl (by decide)) rfl).1,
   by decide⟩

/-! ## C1 / C7 — orchestrator failure persistence and dry-run -/

/-- C1 amended: for every failure raised at any stage of runJobDiscovery
after the initial JobRun has been created, the orchestrator persists
nothing further: the try/catch inside the Effect.gen body never fires
for failures of yielded effects, so no FAILED record is written and no
error message is appended — every persisted record of the run keeps
status RUNNING (the last one being the most recent stage update) and the
typed error propagates to the caller; consequently the three counts of
the persisted run records are monotonically non-decreasing across the
run's lifetime. -/
theorem runJobDiscovery_error_propagates (env : PipelineEnv) (criteria : JobCriteria)
    (dryRun : Bool) (e : String)
    (herr : (runJobDiscovery env criteria dryRun).1 = .error e) :
    ((runJobDiscovery env criteria dryRun).2.map (fun r => r.status)).all
        (fun s => s == JobRunStatus.RUNNING) = true ∧
    List.Chain' (fun a b => a ≤ b)
      ((runJobDiscovery env criteria dryRun).2.map (fun r => r.jobsFound)) ∧
    List.Chain' (fun a b => a ≤ b)
      ((runJobDiscovery env criteria dryRun).2.map (fun r => r.jobsProcessed)) ∧
    List.Chain' (fun a b => a ≤ b)
      ((runJobDiscovery env criteria dryRun).2.map (fun r => r.jobsScored)) := by
  rcases hrun : runJobDiscovery env criteria dryRun with ⟨res, trace⟩
  simp only [hrun] at herr ⊢
  unfold runJobDiscovery at hrun
  dsimp only at hrun
  repeat' split at hrun
  all_goals injection hrun with h1 h2
  all_goals subst h2
  all_goals first
    | (rw [← h1] at herr; exact Except.noConfusion herr)
    | simp [initialRun, List.chain'_cons]

def envFailExtract : PipelineEnv :=
  { runId := "run-1", now := 0,
    authResult := .ok sampleSession,
    scrapeResult := fun _ => .ok [sampleJob "job-1"],
    processResult := fun _ => .error "LLM exploded",
    scoreResult := fun _ => .ok [],
    notifyResult := fun _ => .ok (),
    saveRunResult := fun _ => .ok () }

/-- C1 counterexample: with a successful scrape of one job followed by a
failing extraction stage, the run fails with the propagated stage error,
yet the persisted trace is [RUNNING, RUNNING] with empty error lists —
no record with status FAILED and no appended error message is ever
persisted, refuting the claimed FAILED persist; the persisted jobsFound
values are [0, 1] (the partial count survives untouched). -/
theorem runJobDiscovery_no_failed_record_counterexample :
    (runJobDiscovery envFailExtract sampleCriteria false).1 = .error "LLM exploded" ∧
    ((runJobDiscovery envFailExtract sampleCriteria false).2.map (fun r => r.status)) =
      [.RUNNING, .RUNNING] ∧
    ((runJobDiscovery envFailExtract sampleCriteria false).2.map
        (fun r => r.status)).count JobRunStatus.FAILED = 0 ∧
    ((runJobDiscovery envFailExtract sampleCriteria false).2.map (fun r => r.jobsFound)) =
      [0, 1] ∧
    ((runJobDiscovery envFailExtract sampleCriteria false).2.map (fun r => r.errors)) =
      [[], []] :=
  ⟨rfl, rfl, rfl, rfl, rfl⟩

/-- C1 witness: the amended theorem applied at the concrete
failing-extraction run — all persisted records stay RUNNING and all
three persisted counts are monotone. -/
theorem runJobDiscovery_error_propagates_witness :
    (runJobDiscovery envFailExtract sampleCriteria false).1 = .error "LLM exploded" ∧
    (((runJobDiscovery envFailExtract sampleCriteria false).2.map (fun r => r.status)).all
        (fun s => s == JobRunStatus.RUNNING) = true ∧
     List.Chain' (fun a b => a ≤ b)
       ((runJobDiscovery envFailExtract sampleCriteria false).2.map
         (fun r => r.jobsFound)) ∧
     List.Chain' (fun a b => a ≤ b)
       ((runJobDiscovery envFailExtract sampleCriteria false).2.map
         (fun r => r.jobsProcessed)) ∧
     List.Chain' (fun a b => a ≤ b)
       ((runJobDiscovery envFailExtract sampleCriteria false).2.map
         (fun r => r.jobsScored))) :=
  ⟨rfl, runJobDiscovery_error_propagates envFailExtract sampleCriteria false
    "LLM exploded" rfl⟩

/-- C7 amended: with dryRun, once the scrape stage has succeeded and the
jobsFound update has been persisted, runJobDiscovery returns a COMPLETED
run record to the caller but does not persist it: the persisted trace
ends with the RUNNING record carrying jobsFound, and the extraction,
scoring and notification stages are never invoked (the equation holds
for arbitrary stage oracles, which are therefore never consulted). -/
theorem runJobDiscovery_dryRun (env : PipelineEnv) (criteria : JobCriteria)
    (session : AuthSession) (jobs : List Job)
    (hsave : ∀ r, env.saveRunResult r = .ok ())
    (hauth : env.authResult = .ok session)
    (hscrape : env.scrapeResult session = .ok jobs) :
    runJobDiscovery env criteria true =
      (.ok { id := env.runId, criteriaId := criteria.id, startedAt := env.now,
             completedAt := some env.now, jobsFound := jobs.length, jobsProcessed := 0,
             jobsScored := 0, errors := [], status := .COMPLETED },
       [initialRun env criteria.id,
        { id := env.runId, criteriaId := criteria.id, startedAt := env.now,
          completedAt := none, jobsFound := jobs.length, jobsProcessed := 0,
          jobsScored := 0, errors := [], status := .RUNNING }]) := by
  unfold runJobDiscovery
  simp [hsave, hauth, hscrape, initialRun]

/-- C7 counterexample: in a concrete dry run that scrapes one job, the
caller receives a COMPLETED record, but no persisted record ever has
status COMPLETED — the persisted statuses are [RUNNING, RUNNING], so
the claim's "the run record is persisted with status COMPLETED" is
false on the code. -/
theorem runJobDiscovery_dryRun_counterexample :
    (runJobDiscovery envFailExtract sampleCriteria true).1 =
      .ok { id := "run-1", criteriaId := "criteria-1", startedAt := 0,
            completedAt := some 0, jobsFound := 1, jobsProcessed := 0,
            jobsScored := 0, errors := [], status := .COMPLETED } ∧
    ((runJobDiscovery envFailExtract sampleCriteria true).2.map (fun r => r.status)) =
      [.RUNNING, .RUNNING] ∧
    ((runJobDiscovery envFailExtract sampleCriteria true).2.map
        (fun r => r.status)).count JobRunStatus.COMPLETED = 0 :=
  ⟨rfl, rfl, rfl⟩

/-- C7 witness: the amended dry-run theorem applied at the concrete
environment (whose extraction oracle would fail if it were consulted). -/
theorem runJobDiscovery_dryRun_witness :
    runJobDiscovery envFailExtract sampleCriteria true =
      (.ok { id := "run-1", criteriaId := "criteria-1", startedAt := 0,
             completedAt := some 0, jobsFound := 1, jobsProcessed := 0,
             jobsScored := 0, errors := [], status := .COMPLETED },
       [initialRun envFailExtract "criteria-1",
        { id := "run-1", criteriaId := "criteria-1", startedAt := 0,
          completedAt := none, jobsFound := 1, jobsProcessed := 0,
          jobsScored := 0, errors := [], status := .RUNNING }]) :=
  runJobDiscovery_dryRun envFailExtract sampleCriteria sampleSession [sampleJob "job-1"]
    (fun _ => rfl) rfl rfl

end NullNullJob
